import Mathlib

set_option maxRecDepth 40000

/-!
# Verification of the Multi-AI Business Consultant pipeline

Shallow embedding of the repository's structured-output pipeline:

* `src/utils/json_parse.py` — `extract_json`, `validate_and_fix_json`,
  `_fix_common_issues` (pydantic 2.x semantics for the concrete schemas);
* `src/schemas.py` — the typed artifact records;
* `src/agents/*.py` — each agent's post-processing (extraction, fallback
  mapping, validation, outermost exception net);
* `src/utils/kpi.py` — `KPIGenerator.generate_from_agents`;
* `src/utils/stitch.py` — `ReportStitcher.generate_executive_summary`,
  `build_full_report`;
* `src/orchestrator.py` — `generate_report`;
* `src/main.py` — `get_client_input` and the entry sequencing.

Python values parsed from JSON are modelled by `Json`; the extra `undef`
constructor models the `PydanticUndefined` sentinel that
`_fix_common_issues` copies out of `FieldInfo.default` for fields without a
declared default (pydantic 2.x stores `PydanticUndefined`, never `...`, so
the code's `field_info.default is not ...` test is always true).  Numbers
keep their raw lexeme; the report's `generated_at` wall-clock timestamp is
outside the embedding.  The generation client (`src/utils/llm.py`) performs
network I/O and is modelled as an opaquely supplied response string per
call, as every claim under study stubs it.
-/

/-- A Python value as produced by `json.loads`, plus the
`PydanticUndefined` sentinel (`undef`) that `_fix_common_issues` can insert
into a mapping.  Numbers carry their raw lexeme. -/
inductive Json where
  | null : Json
  | bool (b : Bool) : Json
  | num (raw : String) : Json
  | str (s : String) : Json
  | arr (xs : List Json) : Json
  | obj (kvs : List (String × Json)) : Json
  | undef : Json

/-- A Python `dict` with string keys, in insertion order. -/
abbrev Obj := List (String × Json)

namespace Json

/-- Is this value a Python `dict`? -/
def isObj : Json → Bool
  | .obj _ => true
  | _ => false

end Json

/-- Key membership in a `dict` (`k in d` in Python). -/
def objHasKey (kvs : Obj) (k : String) : Bool :=
  kvs.any (fun kv => kv.fst = k)

/-- `d.get(k)` for a `dict` in insertion order. -/
def objGet (kvs : Obj) (k : String) : Option Json :=
  match kvs.find? (fun kv => kv.fst = k) with
  | some kv => some kv.snd
  | none => none

/-- `d[k] = v`: update in place if the key exists, else append, matching
Python `dict` insertion-order semantics. -/
def objSet (kvs : Obj) (k : String) (v : Json) : Obj :=
  if objHasKey kvs k then
    kvs.map (fun kv => if kv.fst = k then (k, v) else kv)
  else
    kvs ++ [(k, v)]

/-- JSON inter-token whitespace, as in Python's `json` module
(`' '`, `'\t'`, `'\n'`, `'\r'`). -/
def isJsonWs (c : Char) : Bool :=
  c = ' ' ∨ c = '\t' ∨ c = '\n' ∨ c = '\r'

/-- Whitespace for Python's `str.strip` and the regex class `\s`
(ASCII portion). -/
def isPyWs (c : Char) : Bool :=
  c = ' ' ∨ c = '\t' ∨ c = '\n' ∨ c = '\r' ∨ c = '\x0b' ∨ c = '\x0c'

/-- `text.strip()` on a character list. -/
def pyStrip (l : List Char) : List Char :=
  ((l.dropWhile isPyWs).reverse.dropWhile isPyWs).reverse

/-- Skip JSON whitespace. -/
def skipWs (l : List Char) : List Char :=
  l.dropWhile isJsonWs

/-- Hexadecimal digit value. -/
def hexVal (c : Char) : Option Nat :=
  if '0' ≤ c ∧ c ≤ '9' then some (c.toNat - '0'.toNat)
  else if 'a' ≤ c ∧ c ≤ 'f' then some (c.toNat - 'a'.toNat + 10)
  else if 'A' ≤ c ∧ c ≤ 'F' then some (c.toNat - 'A'.toNat + 10)
  else none

/-- Decimal digit test. -/
def isDigit (c : Char) : Bool :=
  '0' ≤ c ∧ c ≤ '9'

/-- Prepend a decoded character to the result of a string-body parse. -/
def strCons (d : Char) : Option (String × List Char) → Option (String × List Char)
  | some (s, rr) => some (⟨d :: s.data⟩, rr)
  | none => none

/-- Decode one escape code letter (the non-`\u` cases). -/
def escChar (e : Char) : Option Char :=
  if e = '"' then some '"'
  else if e = '\\' then some '\\'
  else if e = '/' then some '/'
  else if e = 'b' then some '\x08'
  else if e = 'f' then some '\x0c'
  else if e = 'n' then some '\n'
  else if e = 'r' then some '\r'
  else if e = 't' then some '\t'
  else none

/-- Combine four hex digits into a code unit. -/
def hex4 (h1 h2 h3 h4 : Char) : Option Nat :=
  match hexVal h1, hexVal h2, hexVal h3, hexVal h4 with
  | some a, some b, some c, some d => some (((a * 16 + b) * 16 + c) * 16 + d)
  | _, _, _, _ => none

/-- Decode a `\uXXXX` escape (input positioned after the `u`), combining a
surrogate pair when one follows.  A lone surrogate, which Lean's `Char`
cannot carry, decodes to `'\x00'` — a corner Python renders as a lone
surrogate. -/
def decodeU : List Char → Option (Char × List Char)
  | h1 :: h2 :: h3 :: h4 :: r3 =>
    match hex4 h1 h2 h3 h4 with
    | some n =>
      if 0xD800 ≤ n ∧ n ≤ 0xDBFF then
        match r3 with
        | '\\' :: 'u' :: g1 :: g2 :: g3 :: g4 :: r4 =>
          match hex4 g1 g2 g3 g4 with
          | some m =>
            if 0xDC00 ≤ m ∧ m ≤ 0xDFFF then
              some (Char.ofNat (0x10000 + (n - 0xD800) * 0x400 + (m - 0xDC00)), r4)
            else some (Char.ofNat n, r3)
          | none => some (Char.ofNat n, r3)
        | _ => some (Char.ofNat n, r3)
      else some (Char.ofNat n, r3)
    | none => none
  | _ => none

/-- Body of a JSON string literal after the opening quote, fuel-bounded:
returns the decoded string and the input after the closing quote.  Mirrors
`json.decoder.py_scanstring` with `strict=True`: raw control characters
are refused.  Every step consumes at least one character, so fuel
`length + 1` is exact. -/
def parseStrBody : Nat → List Char → Option (String × List Char)
  | 0, _ => none
  | _ + 1, [] => none
  | n + 1, c :: r =>
    if c = '"' then some ("", r)
    else if c = '\\' then
      match r with
      | [] => none
      | 'u' :: r2 =>
        match decodeU r2 with
        | some (d, rest) => strCons d (parseStrBody n rest)
        | none => none
      | e :: r2 =>
        match escChar e with
        | some d => strCons d (parseStrBody n r2)
        | none => none
    else if c.toNat < 0x20 then none
    else strCons c (parseStrBody n r)

/-- A JSON string body with exactly enough fuel. -/
def parseStr (l : List Char) : Option (String × List Char) :=
  parseStrBody (l.length + 1) l

/-- A JSON number lexeme starting at the head of the input, following
`json.decoder.NUMBER_RE` (`-?(0|[1-9]\d*)(\.\d+)?([eE][-+]?\d+)?`), plus
the `NaN`/`Infinity`/`-Infinity` constants the scanner accepts.  Returns
the raw lexeme and the rest. -/
def parseIntPart (l : List Char) : Option (List Char × List Char) :=
  let (sign, l1) :=
    match l with
    | '-' :: r => (['-'], r)
    | _ => (([] : List Char), l)
  match l1 with
  | [] => none
  | c :: r =>
    if c = '0' then
      some (sign ++ ['0'], r)
    else if isDigit c then
      some (sign ++ c :: r.takeWhile isDigit, r.dropWhile isDigit)
    else none

/-- Optional fraction part `.\d+` appended to a number lexeme. -/
def parseFrac (l : List Char) : (List Char × List Char) :=
  match l with
  | '.' :: r =>
    let ds := r.takeWhile isDigit
    if ds = [] then ([], l) else ('.' :: ds, r.dropWhile isDigit)
  | _ => ([], l)

/-- Optional exponent part `[eE][-+]?\d+` appended to a number lexeme. -/
def parseExp (l : List Char) : (List Char × List Char) :=
  match l with
  | e :: r =>
    if e = 'e' ∨ e = 'E' then
      let (sgn, r1) :=
        match r with
        | '+' :: rr => (['+'], rr)
        | '-' :: rr => (['-'], rr)
        | _ => (([] : List Char), r)
      let ds := r1.takeWhile isDigit
      if ds = [] then ([], e :: r) else (e :: (sgn ++ ds), r1.dropWhile isDigit)
    else ([], e :: r)
  | [] => ([], [])

/-- A complete JSON number (or `NaN`/`Infinity`/`-Infinity` constant)
starting at the head of the input; returns the raw lexeme. -/
def parseNumber (l : List Char) : Option (String × List Char) :=
  if l.take 3 = "NaN".data then some ("NaN", l.drop 3)
  else if l.take 8 = "Infinity".data then some ("Infinity", l.drop 8)
  else if l.take 9 = "-Infinity".data then some ("-Infinity", l.drop 9)
  else
    match parseIntPart l with
    | some (ip, r1) =>
      let (f, r2) := parseFrac r1
      let (e, r3) := parseExp r2
      some (String.mk (ip ++ f ++ e), r3)
    | none => none

mutual

/-- One JSON value, fuel-bounded recursive descent mirroring
`json.decoder.JSONDecoder` (`scan_once`): leading whitespace is not
skipped here (the callers position the scanner), matching `py_make_scanner`. -/
def parseVal : Nat → List Char → Option (Json × List Char)
  | 0, _ => none
  | n + 1, l =>
    match l with
    | '\x7b' :: r => parseObjBody n r
    | '[' :: r => parseArrBody n r
    | '"' :: r =>
      match parseStr r with
      | some (s, rr) => some (.str s, rr)
      | none => none
    | _ =>
      if l.take 4 = "true".data then some (.bool true, l.drop 4)
      else if l.take 5 = "false".data then some (.bool false, l.drop 5)
      else if l.take 4 = "null".data then some (.null, l.drop 4)
      else
        match parseNumber l with
        | some (raw, rr) => some (.num raw, rr)
        | none => none

/-- Object body after the opening brace. -/
def parseObjBody : Nat → List Char → Option (Json × List Char)
  | 0, _ => none
  | n + 1, r =>
    match skipWs r with
    | '\x7d' :: rest => some (.obj [], rest)
    | l1 => parseMembers n l1 []

/-- Object members, starting at a key; `acc` carries members already read.
Duplicate keys overwrite in place, as for a Python `dict`. -/
def parseMembers : Nat → List Char → Obj → Option (Json × List Char)
  | 0, _, _ => none
  | n + 1, l, acc =>
    match l with
    | '"' :: r =>
      match parseStr r with
      | some (k, r1) =>
        match skipWs r1 with
        | ':' :: r2 =>
          match parseVal n (skipWs r2) with
          | some (v, r3) =>
            let acc2 := objSet acc k v
            match skipWs r3 with
            | ',' :: r4 => parseMembers n (skipWs r4) acc2
            | '\x7d' :: r4 => some (.obj acc2, r4)
            | _ => none
          | none => none
        | _ => none
      | none => none
    | _ => none

/-- Array body after the opening bracket. -/
def parseArrBody : Nat → List Char → Option (Json × List Char)
  | 0, _ => none
  | n + 1, r =>
    match skipWs r with
    | ']' :: rest => some (.arr [], rest)
    | l1 => parseElems n l1 []

/-- Array elements; `acc` carries elements already read, in reverse. -/
def parseElems : Nat → List Char → List Json → Option (Json × List Char)
  | 0, _, _ => none
  | n + 1, l, acc =>
    match parseVal n l with
    | some (v, r1) =>
      match skipWs r1 with
      | ',' :: r2 => parseElems n (skipWs r2) (v :: acc)
      | ']' :: r2 => some (.arr (v :: acc).reverse, r2)
      | _ => none
    | none => none

end

/-- `json.loads` on a character list: one value, with surrounding
whitespace, and nothing after it (`Extra data` otherwise). -/
def jsonLoads (l : List Char) : Option Json :=
  match parseVal (2 * l.length + 2) (skipWs l) with
  | some (v, rest) => if skipWs rest = [] then some v else none
  | none => none

/-! ## `extract_json` (src/utils/json_parse.py lines 9–43)

Step 1 parses the stripped text directly.  Step 2 is the regex
search for a fenced block.  Step 3 is
`re.findall` of the brace regex, whose character classes are pairwise
disjoint, so the regex engine's behaviour is the deterministic scan
implemented here: an opening brace, runs of non-brace characters, at most
one level of inner brace pairs, and a closing brace; a deeper `\x7b`
fails the whole attempt at that start position. -/

/-- Does `\s*` followed by a closing triple backtick start here?  (the
regex tail after the captured group). -/
def fenceFollows (l : List Char) : Bool :=
  (l.dropWhile isPyWs).take 3 = "```".data

/-- Non-greedy body scan of `(\x7b.*?\x7d)\s*` + backticks: the earliest
closing brace whose continuation matches wins; the consumed characters
(ending with that brace) are returned. -/
def scanClose : List Char → Option (List Char)
  | [] => none
  | c :: r =>
    if c = '\x7d' ∧ fenceFollows r then some [c]
    else
      match scanClose r with
      | some m => some (c :: m)
      | none => none

/-- Match the fence pattern body at a position just after the opening
backticks (and after `json` when that branch is taken): `\s*` then the
captured `\x7b.*?\x7d` group. -/
def fenceAttempt (l : List Char) : Option (List Char) :=
  match l.dropWhile isPyWs with
  | '\x7b' :: r =>
    match scanClose r with
    | some m => some ('\x7b' :: m)
    | none => none
  | _ => none

/-- The fence pattern continued just after the opening backticks:
`(?:json)?` prefers consuming `json`, backtracking to the empty
alternative on failure. -/
def fenceHere (after : List Char) : Option (List Char) :=
  if after.take 4 = "json".data then
    match fenceAttempt (after.drop 4) with
    | some m => some m
    | none => fenceAttempt after
  else fenceAttempt after

/-- First match of the fenced-block regex over the whole text
(the code only ever uses `matches[0]`): at each position a match must
start with three backticks. -/
def findFence : List Char → Option (List Char)
  | [] => none
  | c :: r =>
    if (c :: r).take 3 = "```".data then
      match fenceHere ((c :: r).drop 3) with
      | some m => some m
      | none => findFence r
    else findFence r

/-- Character class `[^\x7b\x7d]` of the brace regex. -/
def notBrace (c : Char) : Bool :=
  ¬ (c = '\x7b' ∨ c = '\x7d')

/-- Deterministic scan equivalent to the regex
`\x7b[^\x7b\x7d]*(?:\x7b[^\x7b\x7d]*\x7d[^\x7b\x7d]*)*\x7d` after the
opening brace: `inner` records whether we are inside an inner pair.
A second-level opening brace fails the attempt. -/
def flatAux : Bool → List Char → Option (List Char × List Char)
  | _, [] => none
  | inner, c :: r =>
    if c = '\x7d' then
      if inner then
        match flatAux false r with
        | some (m, rest) => some (c :: m, rest)
        | none => none
      else some ([c], r)
    else if c = '\x7b' then
      if inner then none
      else
        match flatAux true r with
        | some (m, rest) => some (c :: m, rest)
        | none => none
    else
      match flatAux inner r with
      | some (m, rest) => some (c :: m, rest)
      | none => none

/-- One attempted match of the brace regex at the current position. -/
def flatMatch : List Char → Option (List Char × List Char)
  | [] => none
  | c :: r =>
    if c = '\x7b' then
      match flatAux false r with
      | some (m, rest) => some (c :: m, rest)
      | none => none
    else none

/-- The `for match in re.findall(...)` loop of step 3, fuel-bounded:
try a match at each position in order; on a match whose parse fails,
continue after the match (`re.findall` matches are non-overlapping);
first successful parse wins. -/
def step3F : Nat → List Char → Option Json
  | 0, _ => none
  | _ + 1, [] => none
  | n + 1, c :: r =>
    match flatMatch (c :: r) with
    | some (m, rest) =>
      match jsonLoads m with
      | some v => some v
      | none => step3F n rest
    | none => step3F n r

/-- Step 3 with exact fuel. -/
def step3 (l : List Char) : Option Json :=
  step3F (l.length + 1) l

/-- `extract_json` (src/utils/json_parse.py).  Step 1 returns whatever
`json.loads` yields on the stripped text, of any JSON type; steps 2 and 3
can only yield mappings. -/
def extract_json (s : String) : Option Json :=
  match jsonLoads (pyStrip s.data) with
  | some v => some v
  | none =>
    match findFence s.data with
    | some grp =>
      match jsonLoads grp with
      | some v => some v
      | none => step3 s.data
    | none => step3 s.data

/-! ## Specification-side definitions for the Extractor claims

These follow the spec's words (§4.1 step 3: "the first syntactically
balanced brace-delimited substring using a bracket-depth matcher"), to be
compared with the implementation above. -/

/-- Bracket-depth scan at depth `d ≥ 1`: consume until the matching
closing brace of the opening one. -/
def balAux : Nat → List Char → Option (List Char × List Char)
  | _, [] => none
  | d, c :: r =>
    if c = '\x7b' then
      match balAux (d + 1) r with
      | some (m, rest) => some (c :: m, rest)
      | none => none
    else if c = '\x7d' then
      if d = 1 then some ([c], r)
      else
        match balAux (d - 1) r with
        | some (m, rest) => some (c :: m, rest)
        | none => none
    else
      match balAux d r with
      | some (m, rest) => some (c :: m, rest)
      | none => none

/-- A balanced brace-delimited substring starting exactly here. -/
def balMatch : List Char → Option (List Char × List Char)
  | [] => none
  | c :: r =>
    if c = '\x7b' then
      match balAux 1 r with
      | some (m, rest) => some (c :: m, rest)
      | none => none
    else none

/-- The first (leftmost-starting) balanced brace-delimited substring of
the text — the spec's bracket-depth matcher. -/
def firstBalanced : List Char → Option (List Char)
  | [] => none
  | c :: r =>
    match balMatch (c :: r) with
    | some (m, _) => some m
    | none => firstBalanced r

/-- Does the brace nesting, scanned from depth `d`, stay within depth 2
(an outer pair plus at most one inner level)? -/
def okDepth : Nat → List Char → Bool
  | _, [] => true
  | d, c :: r =>
    if c = '\x7b' then decide (d + 1 ≤ 2) && okDepth (d + 1) r
    else if c = '\x7d' then okDepth (d - 1) r
    else okDepth d r

/-- Does a triple backtick occur anywhere (the precondition "has no
fenced code block" is its negation)? -/
def containsFence : List Char → Bool
  | [] => false
  | c :: r => ((c :: r).take 3 = "```".data) || containsFence r

/-! ## Python value helpers -/

/-- The mantissa characters of a raw number lexeme (sign dropped,
exponent cut off). -/
def mantissa (l : List Char) : List Char :=
  (l.dropWhile (fun c => c = '-' ∨ c = '+')).takeWhile (fun c => ¬ (c = 'e' ∨ c = 'E'))

/-- Is the raw lexeme a numeric zero (`0`, `-0.0`, `0e5`, …)?
`NaN`/`Infinity` have no digits and are not zero. -/
def isZeroRaw (raw : String) : Bool :=
  (mantissa raw.data).any isDigit &&
    (mantissa raw.data).all (fun c => ¬ isDigit c ∨ c = '0')

/-- Python truthiness of a value (`if not data:`, `[value] if value
else []`, …).  `PydanticUndefined` defines no `__bool__`, so it is
truthy. -/
def pyTruthy : Json → Bool
  | .null => false
  | .bool b => b
  | .num raw => ¬ isZeroRaw raw
  | .str s => s ≠ ""
  | .arr xs => ¬ xs.isEmpty
  | .obj kvs => ¬ kvs.isEmpty
  | .undef => true

mutual

/-- Python `repr` of a parsed-JSON value, as used by `str` on containers
(string escaping inside `repr` is approximated by plain single quotes). -/
def pyRepr : Json → String
  | .null => "None"
  | .bool b => if b then "True" else "False"
  | .num raw => raw
  | .str s => "'" ++ s ++ "'"
  | .arr xs => "[" ++ String.intercalate ", " (pyReprList xs) ++ "]"
  | .obj kvs => "\x7b" ++ String.intercalate ", " (pyReprObj kvs) ++ "\x7d"
  | .undef => "PydanticUndefined"

def pyReprList : List Json → List String
  | [] => []
  | x :: xs => pyRepr x :: pyReprList xs

def pyReprObj : List (String × Json) → List String
  | [] => []
  | (k, v) :: kvs => ("'" ++ k ++ "': " ++ pyRepr v) :: pyReprObj kvs

end

/-- Python `str()` of a value, as interpolated by f-strings: a string is
itself, containers use `repr`.  (A float's canonical re-rendering is
approximated by its raw lexeme.) -/
def pyStr : Json → String
  | .str s => s
  | v => pyRepr v

/-! ## pydantic 2.x model construction (src/schemas.py)

Each schema's `Model(**data)` is embedded as a `construct` function in
declared field order: a missing field without a declared default is an
error; a declared default is used unvalidated; a present value is
validated in lax mode — `str` accepts exactly `str`, `List[...]` exactly
`list` with valid items, `Dict[str, Any]` exactly `dict`,
`Optional[str]` exactly `str` or `None`.  Extra keys are ignored
(pydantic's default `extra='ignore'`).  Whether the model collects one
or many errors is irrelevant here; only ok-versus-error is modelled. -/

/-- A pydantic error observable by the callers: `TypeError` from
`Model(**non_mapping)`, or `ValidationError`. -/
inductive PyErr where
  | typeError : PyErr
  | validationError : PyErr
deriving DecidableEq

/-- Lax validation of a `str` field. -/
def vStr : Json → Except PyErr String
  | .str s => .ok s
  | _ => .error .validationError

/-- Lax validation of `List[str]` items. -/
def vStrItems : List Json → Except PyErr (List String)
  | [] => .ok []
  | .str s :: r => (vStrItems r).map (fun t => s :: t)
  | _ => .error .validationError

/-- Lax validation of a `List[str]` field. -/
def vListStr : Json → Except PyErr (List String)
  | .arr xs => vStrItems xs
  | _ => .error .validationError

/-- Lax validation of `List[Dict[str, Any]]` items. -/
def vObjItems : List Json → Except PyErr (List Obj)
  | [] => .ok []
  | .obj kvs :: r => (vObjItems r).map (fun t => kvs :: t)
  | _ => .error .validationError

/-- Lax validation of a `List[Dict[str, Any]]` field. -/
def vListObj : Json → Except PyErr (List Obj)
  | .arr xs => vObjItems xs
  | _ => .error .validationError

/-- Lax validation of `Dict[str, str]` values. -/
def vStrVals : List (String × Json) → Except PyErr (List (String × String))
  | [] => .ok []
  | (k, .str s) :: r => (vStrVals r).map (fun t => (k, s) :: t)
  | _ => .error .validationError

/-- Lax validation of `List[Dict[str, str]]` items. -/
def vStrObjItems : List Json → Except PyErr (List (List (String × String)))
  | [] => .ok []
  | .obj kvs :: r =>
    match vStrVals kvs with
    | .ok m => (vStrObjItems r).map (fun t => m :: t)
    | .error e => .error e
  | _ => .error .validationError

/-- Lax validation of a `List[Dict[str, str]]` field. -/
def vListStrObj : Json → Except PyErr (List (List (String × String)))
  | .arr xs => vStrObjItems xs
  | _ => .error .validationError

/-- Lax validation of a `Dict[str, Any]` field. -/
def vObj : Json → Except PyErr Obj
  | .obj kvs => .ok kvs
  | _ => .error .validationError

/-- Lax validation of an `Optional[str]` field. -/
def vOptStr : Json → Except PyErr (Option String)
  | .null => .ok none
  | .str s => .ok (some s)
  | _ => .error .validationError

/-- A required field: absent means a `missing` error. -/
def reqField (data : Obj) (name : String) (f : Json → Except PyErr α) :
    Except PyErr α :=
  match objGet data name with
  | some v => f v
  | none => .error .validationError

/-- A field with a declared default: the default is used, unvalidated,
when absent. -/
def dfltField (data : Obj) (name : String) (d : α) (f : Json → Except PyErr α) :
    Except PyErr α :=
  match objGet data name with
  | some v => f v
  | none => .ok d

/-! ## `_fix_common_issues` and `validate_and_fix_json`
(src/utils/json_parse.py lines 46–126) -/

/-- The shape of a declared field annotation, as far as
`_fix_common_issues` inspects it. -/
inductive Shape where
  | sStr : Shape
  | sListStr : Shape
  | sListObj : Shape
  | sListObjStr : Shape
  | sObj : Shape
  | sOptStr : Shape
deriving DecidableEq

/-- One entry of a model's `model_fields`: name, annotation shape, and
the declared default.  `none` models pydantic's `PydanticUndefined`
(required field); the code's `field_info.default is not ...` test is
true in both cases, so a missing required field receives the
`PydanticUndefined` sentinel itself. -/
structure FieldSpec where
  name : String
  shape : Shape
  dflt : Option Json

/-- A model's `model_fields`, in declaration order. -/
abbrev Schema := List FieldSpec

/-- Is the annotation a `List[...]` (`annotation.__origin__ is list`)? -/
def Shape.isList : Shape → Bool
  | .sListStr | .sListObj | .sListObjStr => true
  | _ => false

/-- Is the annotation an `Optional[...]` (`NoneType` among its args)? -/
def Shape.isOpt : Shape → Bool
  | .sOptStr => true
  | _ => false

/-- `fixed[field_name] = g(fixed[field_name])` on the mapping, in place. -/
def objMapAt (kvs : Obj) (k : String) (g : Json → Json) : Obj :=
  kvs.map (fun kv => if kv.fst = k then (kv.fst, g kv.snd) else kv)

/-- `_fix_common_issues`: first ensure every declared field exists
(copying `field_info.default`, which is the declared default or the
`PydanticUndefined` sentinel), then convert values: a non-list under a
`List[...]` annotation is wrapped into a singleton when truthy, else
replaced by an empty list; a non-`str`, non-`None` value under
`Optional[str]` is coerced with `str(value)`. -/
def fix_common_issues (fields : Schema) (data : Obj) : Obj :=
  let fixed := fields.foldl
    (fun acc f =>
      if objHasKey acc f.name then acc
      else acc ++ [(f.name, f.dflt.getD Json.undef)])
    data
  fields.foldl
    (fun acc f =>
      let acc1 :=
        if f.shape.isList then
          objMapAt acc f.name (fun v =>
            match v with
            | .arr xs => .arr xs
            | _ => if pyTruthy v then .arr [v] else .arr [])
        else acc
      if f.shape.isOpt then
        objMapAt acc1 f.name (fun v =>
          match v with
          | .str s => .str s
          | .null => .null
          | _ => .str (pyStr v))
      else acc1)
    fixed

/-- `validate_and_fix_json(data, schema, strict)`: strict construction;
on `ValidationError`, when not strict, retry on the repaired mapping;
on a second failure, construct from the schema-declared subset of the
original input — an attempt that is *not* exception-guarded, so its
`ValidationError` propagates.  A non-mapping `data` makes
`schema(**data)` raise `TypeError` at once, which no handler catches. -/
def validate_and_fix_json (construct : Obj → Except PyErr α)
    (fields : Schema) (data : Json) (strict : Bool) : Except PyErr α :=
  match data with
  | .obj o =>
    match construct o with
    | .ok r => .ok r
    | .error e =>
      if strict then .error e
      else
        match construct (fix_common_issues fields o) with
        | .ok r => .ok r
        | .error _ =>
          construct (o.filter (fun kv => fields.any (fun f => f.name = kv.fst)))
  | _ => .error .typeError

/-! ## The artifact records (src/schemas.py) with their constructions -/

/-- `ClientInput`. -/
structure ClientInput where
  business : String
  industry : String
  goal : String
  constraints : String
  additional_context : Option String

/-- `DiscoveryOutput`. -/
structure DiscoveryOutput where
  problem_statement : String
  key_assumptions : List String
  facts_gathered : List String
  questions_clarified : List String
  business_model : String
  target_market : String

/-- `DiscoveryOutput(**data)`. -/
def DiscoveryOutput.construct (data : Obj) : Except PyErr DiscoveryOutput := do
  let ps ← reqField data "problem_statement" vStr
  let ka ← reqField data "key_assumptions" vListStr
  let fg ← reqField data "facts_gathered" vListStr
  let qc ← reqField data "questions_clarified" vListStr
  let bm ← reqField data "business_model" vStr
  let tm ← reqField data "target_market" vStr
  pure ⟨ps, ka, fg, qc, bm, tm⟩

/-- `DiscoveryOutput.model_fields`. -/
def discoveryFields : Schema :=
  [⟨"problem_statement", .sStr, none⟩,
   ⟨"key_assumptions", .sListStr, none⟩,
   ⟨"facts_gathered", .sListStr, none⟩,
   ⟨"questions_clarified", .sListStr, none⟩,
   ⟨"business_model", .sStr, none⟩,
   ⟨"target_market", .sStr, none⟩]

/-- `MarketAnalysis`. -/
structure MarketAnalysis where
  competitors : List Obj
  competitor_map : Obj
  differentiation_opportunities : List String
  positioning_strategy : String
  market_size : Option String
  market_trends : List String

/-- `MarketAnalysis(**data)`. -/
def MarketAnalysis.construct (data : Obj) : Except PyErr MarketAnalysis := do
  let co ← reqField data "competitors" vListObj
  let cm ← reqField data "competitor_map" vObj
  let di ← reqField data "differentiation_opportunities" vListStr
  let ps ← reqField data "positioning_strategy" vStr
  let ms ← dfltField data "market_size" none vOptStr
  let mt ← dfltField data "market_trends" [] vListStr
  pure ⟨co, cm, di, ps, ms, mt⟩

/-- `MarketAnalysis.model_fields`. -/
def marketFields : Schema :=
  [⟨"competitors", .sListObj, none⟩,
   ⟨"competitor_map", .sObj, none⟩,
   ⟨"differentiation_opportunities", .sListStr, none⟩,
   ⟨"positioning_strategy", .sStr, none⟩,
   ⟨"market_size", .sOptStr, some .null⟩,
   ⟨"market_trends", .sListStr, some (.arr [])⟩]

/-- `StrategyOutput`. -/
structure StrategyOutput where
  strategic_options : List Obj
  tradeoffs : Obj
  recommendation : String
  rationale : String
  success_metrics : List String

/-- `StrategyOutput(**data)`. -/
def StrategyOutput.construct (data : Obj) : Except PyErr StrategyOutput := do
  let so ← reqField data "strategic_options" vListObj
  let tr ← reqField data "tradeoffs" vObj
  let re ← reqField data "recommendation" vStr
  let ra ← reqField data "rationale" vStr
  let sm ← reqField data "success_metrics" vListStr
  pure ⟨so, tr, re, ra, sm⟩

/-- `StrategyOutput.model_fields`. -/
def strategyFields : Schema :=
  [⟨"strategic_options", .sListObj, none⟩,
   ⟨"tradeoffs", .sObj, none⟩,
   ⟨"recommendation", .sStr, none⟩,
   ⟨"rationale", .sStr, none⟩,
   ⟨"success_metrics", .sListStr, none⟩]

/-- `ExecutionPlan`. -/
structure ExecutionPlan where
  plan_30_days : List (List (String × String))
  plan_60_days : List (List (String × String))
  plan_90_days : List (List (String × String))
  process_improvements : List String
  org_changes : List String
  resource_requirements : Obj

/-- `ExecutionPlan(**data)`. -/
def ExecutionPlan.construct (data : Obj) : Except PyErr ExecutionPlan := do
  let p30 ← reqField data "plan_30_days" vListStrObj
  let p60 ← reqField data "plan_60_days" vListStrObj
  let p90 ← reqField data "plan_90_days" vListStrObj
  let pi ← reqField data "process_improvements" vListStr
  let oc ← reqField data "org_changes" vListStr
  let rr ← reqField data "resource_requirements" vObj
  pure ⟨p30, p60, p90, pi, oc, rr⟩

/-- `ExecutionPlan.model_fields`. -/
def executionFields : Schema :=
  [⟨"plan_30_days", .sListObjStr, none⟩,
   ⟨"plan_60_days", .sListObjStr, none⟩,
   ⟨"plan_90_days", .sListObjStr, none⟩,
   ⟨"process_improvements", .sListStr, none⟩,
   ⟨"org_changes", .sListStr, none⟩,
   ⟨"resource_requirements", .sObj, none⟩]

/-- `FinancialModel`. -/
structure FinancialModel where
  unit_economics : Obj
  pricing_strategy : String
  revenue_projections : Obj
  cost_structure : Obj
  roi_model : Obj
  break_even_analysis : Obj

/-- `FinancialModel(**data)`. -/
def FinancialModel.construct (data : Obj) : Except PyErr FinancialModel := do
  let ue ← reqField data "unit_economics" vObj
  let ps ← reqField data "pricing_strategy" vStr
  let rp ← reqField data "revenue_projections" vObj
  let cs ← reqField data "cost_structure" vObj
  let rm ← reqField data "roi_model" vObj
  let be ← reqField data "break_even_analysis" vObj
  pure ⟨ue, ps, rp, cs, rm, be⟩

/-- `FinancialModel.model_fields`. -/
def financialFields : Schema :=
  [⟨"unit_economics", .sObj, none⟩,
   ⟨"pricing_strategy", .sStr, none⟩,
   ⟨"revenue_projections", .sObj, none⟩,
   ⟨"cost_structure", .sObj, none⟩,
   ⟨"roi_model", .sObj, none⟩,
   ⟨"break_even_analysis", .sObj, none⟩]

/-- `RiskAnalysis`. -/
structure RiskAnalysis where
  risks : List Obj
  mitigations : List Obj
  compliance_flags : List String
  legal_considerations : List String

/-- `RiskAnalysis(**data)`. -/
def RiskAnalysis.construct (data : Obj) : Except PyErr RiskAnalysis := do
  let ri ← reqField data "risks" vListObj
  let mi ← reqField data "mitigations" vListObj
  let cf ← reqField data "compliance_flags" vListStr
  let lc ← reqField data "legal_considerations" vListStr
  pure ⟨ri, mi, cf, lc⟩

/-- `RiskAnalysis.model_fields`. -/
def riskFields : Schema :=
  [⟨"risks", .sListObj, none⟩,
   ⟨"mitigations", .sListObj, none⟩,
   ⟨"compliance_flags", .sListStr, none⟩,
   ⟨"legal_considerations", .sListStr, none⟩]

/-- `KPIMetrics`. -/
structure KPIMetrics where
  revenue_metrics : Obj
  operational_metrics : Obj
  customer_metrics : Obj
  financial_metrics : Obj
  targets : Obj

/-! ## The agents (src/agents/*.py)

Each `analyze` builds a prompt (pure string work that only feeds the
generation client, hence not modelled), sends it, and post-processes the
response: extraction, falsy-check, stage fallback mapping, validation,
and an outermost `except Exception` returning a hand-built minimal
artifact.  The response string stands for the generation client's
return value. -/

/-- `DiscoveryAgent._parse_fallback`. -/
def DiscoveryAgent.parse_fallback (text : String) : Obj :=
  [("problem_statement",
     .str (if text ≠ "" then text.take 200 else "Problem to be clarified")),
   ("key_assumptions", .arr []),
   ("facts_gathered", .arr (if text ≠ "" then [.str text] else [])),
   ("questions_clarified", .arr []),
   ("business_model", .str "To be determined"),
   ("target_market", .str "To be determined")]

/-- `DiscoveryAgent.analyze`. -/
def DiscoveryAgent.analyze (ci : ClientInput) (response : String) :
    DiscoveryOutput :=
  let data : Json :=
    match extract_json response with
    | some v =>
      if pyTruthy v then v else .obj (DiscoveryAgent.parse_fallback response)
    | none => .obj (DiscoveryAgent.parse_fallback response)
  match validate_and_fix_json DiscoveryOutput.construct discoveryFields data false with
  | .ok r => r
  | .error _ =>
    ⟨ci.goal, [], [ci.business, ci.industry], [], ci.business, "To be determined"⟩

/-- `MarketAgent._parse_fallback`. -/
def MarketAgent.parse_fallback (ci : ClientInput) (discovery : DiscoveryOutput) :
    Obj :=
  [("competitors", .arr []),
   ("competitor_map", .obj []),
   ("differentiation_opportunities",
     .arr [.str ("Focus on " ++ ci.industry ++ " expertise"),
           .str "Leverage unique business model"]),
   ("positioning_strategy",
     .str ("Position as a " ++ discovery.business_model ++ " in " ++ ci.industry)),
   ("market_size", .str "To be researched"),
   ("market_trends", .arr [])]

/-- `MarketAgent.analyze`. -/
def MarketAgent.analyze (ci : ClientInput) (discovery : DiscoveryOutput)
    (response : String) : MarketAnalysis :=
  let data : Json :=
    match extract_json response with
    | some v =>
      if pyTruthy v then v else .obj (MarketAgent.parse_fallback ci discovery)
    | none => .obj (MarketAgent.parse_fallback ci discovery)
  match validate_and_fix_json MarketAnalysis.construct marketFields data false with
  | .ok r => r
  | .error _ =>
    ⟨[], [], [], "To be developed based on market research", none, []⟩

/-- `StrategyAgent._parse_fallback`. -/
def StrategyAgent.parse_fallback (ci : ClientInput) (discovery : DiscoveryOutput) :
    Obj :=
  [("strategic_options",
     .arr [.obj
       [("name", .str "Primary Strategy"),
        ("description", .str ("Focus on " ++ ci.goal)),
        ("pros", .arr [.str "Aligned with goals"]),
        ("cons", .arr [.str "Requires resources"]),
        ("feasibility", .str "medium"),
        ("impact", .str "high")]]),
   ("tradeoffs", .obj []),
   ("recommendation", .str ("Implement strategy to achieve " ++ ci.goal)),
   ("rationale", .str ("Addresses " ++ discovery.problem_statement)),
   ("success_metrics", .arr [.str "Goal achievement", .str "Progress tracking"])]

/-- `StrategyAgent.analyze`. -/
def StrategyAgent.analyze (ci : ClientInput) (discovery : DiscoveryOutput)
    (market : MarketAnalysis) (response : String) : StrategyOutput :=
  let data : Json :=
    match extract_json response with
    | some v =>
      if pyTruthy v then v else .obj (StrategyAgent.parse_fallback ci discovery)
    | none => .obj (StrategyAgent.parse_fallback ci discovery)
  match validate_and_fix_json StrategyOutput.construct strategyFields data false with
  | .ok r => r
  | .error _ =>
    ⟨[], [],
     "Focus on achieving " ++ ci.goal ++ " while addressing " ++
       discovery.problem_statement,
     "Based on business context and constraints",
     ["Revenue growth", "Market share", "Customer satisfaction"]⟩

/-- `OpsAgent._parse_fallback`. -/
def OpsAgent.parse_fallback (strategy : StrategyOutput) : Obj :=
  [("plan_30_days",
     .arr [.obj
       [("task", .str "Initiate strategy implementation"),
        ("owner", .str "Leadership team"),
        ("priority", .str "high"),
        ("status", .str "not_started")]]),
   ("plan_60_days",
     .arr [.obj
       [("task", .str "Execute key initiatives"),
        ("owner", .str "Operations team"),
        ("priority", .str "high"),
        ("status", .str "not_started")]]),
   ("plan_90_days",
     .arr [.obj
       [("task", .str "Review progress and adjust"),
        ("owner", .str "Leadership team"),
        ("priority", .str "medium"),
        ("status", .str "not_started")]]),
   ("process_improvements",
     .arr [.str "Streamline operations", .str "Improve efficiency"]),
   ("org_changes", .arr [.str "Align team structure with strategy"]),
   ("resource_requirements",
     .obj [("people", .str "To be determined"),
           ("budget", .str "To be determined"),
           ("tools", .arr [])])]

/-- `OpsAgent.analyze`. -/
def OpsAgent.analyze (ci : ClientInput) (discovery : DiscoveryOutput)
    (strategy : StrategyOutput) (response : String) : ExecutionPlan :=
  let data : Json :=
    match extract_json response with
    | some v =>
      if pyTruthy v then v else .obj (OpsAgent.parse_fallback strategy)
    | none => .obj (OpsAgent.parse_fallback strategy)
  match validate_and_fix_json ExecutionPlan.construct executionFields data false with
  | .ok r => r
  | .error _ => ⟨[], [], [], [], [], []⟩

/-- `FinanceAgent._parse_fallback`. -/
def FinanceAgent.parse_fallback : Obj :=
  [("unit_economics",
     .obj [("customer_acquisition_cost", .str "To be calculated"),
           ("lifetime_value", .str "To be calculated"),
           ("gross_margin", .str "To be determined"),
           ("contribution_margin", .str "To be determined")]),
   ("pricing_strategy", .str "Competitive pricing based on market analysis"),
   ("revenue_projections",
     .obj [("month_1", .str "Initial revenue"),
           ("month_3", .str "Growing revenue"),
           ("month_6", .str "Established revenue"),
           ("year_1", .str "Annual revenue projection")]),
   ("cost_structure",
     .obj [("fixed_costs", .str "Operational overhead"),
           ("variable_costs", .str "Cost of goods/services"),
           ("cost_breakdown", .str "To be detailed")]),
   ("roi_model",
     .obj [("investment", .str "To be calculated"),
           ("expected_return", .str "To be projected"),
           ("roi", .str "To be calculated"),
           ("payback_period", .str "To be determined"),
           ("assumptions",
             .arr [.str "Market conditions", .str "Execution success"])]),
   ("break_even_analysis",
     .obj [("break_even_point", .str "To be calculated"),
           ("break_even_timeline", .str "To be determined"),
           ("key_assumptions",
             .arr [.str "Revenue growth", .str "Cost management"])])]

/-- `FinanceAgent.analyze`. -/
def FinanceAgent.analyze (ci : ClientInput) (discovery : DiscoveryOutput)
    (strategy : StrategyOutput) (response : String) : FinancialModel :=
  let data : Json :=
    match extract_json response with
    | some v =>
      if pyTruthy v then v else .obj FinanceAgent.parse_fallback
    | none => .obj FinanceAgent.parse_fallback
  match validate_and_fix_json FinancialModel.construct financialFields data false with
  | .ok r => r
  | .error _ =>
    ⟨[], "To be determined based on market research", [], [], [], []⟩

/-- `RiskAgent._parse_fallback`. -/
def RiskAgent.parse_fallback (ci : ClientInput) (strategy : StrategyOutput) :
    Obj :=
  [("risks",
     .arr [.obj
       [("category", .str "Strategic"),
        ("description", .str "Strategy execution risk"),
        ("severity", .str "medium"),
        ("likelihood", .str "medium"),
        ("impact", .str "May affect goal achievement")]]),
   ("mitigations",
     .arr [.obj
       [("risk_id", .str "Strategy execution risk"),
        ("strategy", .str "Regular monitoring and adjustment"),
        ("owner", .str "Leadership team"),
        ("timeline", .str "Ongoing")]]),
   ("compliance_flags",
     .arr [.str ("Industry-specific regulations for " ++ ci.industry),
           .str "Data privacy and security requirements"]),
   ("legal_considerations",
     .arr [.str "Contractual obligations",
           .str "Regulatory compliance",
           .str "Intellectual property protection"])]

/-- `RiskAgent.analyze`. -/
def RiskAgent.analyze (ci : ClientInput) (discovery : DiscoveryOutput)
    (strategy : StrategyOutput) (response : String) : RiskAnalysis :=
  let data : Json :=
    match extract_json response with
    | some v =>
      if pyTruthy v then v else .obj (RiskAgent.parse_fallback ci strategy)
    | none => .obj (RiskAgent.parse_fallback ci strategy)
  match validate_and_fix_json RiskAnalysis.construct riskFields data false with
  | .ok r => r
  | .error _ => ⟨[], [], [], []⟩

/-! ## `KPIGenerator` (src/utils/kpi.py) -/

/-- `KPIGenerator`: the constructor sets `self.metrics = ` an empty dict,
which `generate_from_agents` never reads. -/
structure KPIGenerator where
  metrics : Obj

/-- `KPIGenerator.generate_from_agents`: pure lookups on the three
optional artifacts; every conditional insert keeps Python `dict`
insertion order. -/
def KPIGenerator.generate_from_agents (g : KPIGenerator)
    (financial : Option FinancialModel) (strategy : Option StrategyOutput)
    (execution : Option ExecutionPlan) : KPIMetrics :=
  let revenue_metrics : Obj :=
    match financial with
    | some fin =>
      (if ¬ fin.unit_economics.isEmpty then
        [("unit_economics", .obj fin.unit_economics)] else []) ++
      (if ¬ fin.revenue_projections.isEmpty then
        [("projections", .obj fin.revenue_projections)] else [])
    | none => []
  let financial_metrics : Obj :=
    match financial with
    | some fin =>
      (if ¬ fin.roi_model.isEmpty then [("roi", .obj fin.roi_model)] else []) ++
      (if ¬ fin.break_even_analysis.isEmpty then
        [("break_even", .obj fin.break_even_analysis)] else [])
    | none => []
  let targets : Obj :=
    match strategy with
    | some st =>
      if ¬ st.success_metrics.isEmpty then
        [("strategic_metrics", .arr (st.success_metrics.map .str))]
      else []
    | none => []
  let operational_metrics : Obj :=
    match execution with
    | some ex =>
      [("milestones_30", .num (toString ex.plan_30_days.length)),
       ("milestones_60", .num (toString ex.plan_60_days.length)),
       ("milestones_90", .num (toString ex.plan_90_days.length))] ++
      (if ¬ ex.resource_requirements.isEmpty then
        [("resources", .obj ex.resource_requirements)] else [])
    | none => []
  ⟨revenue_metrics, operational_metrics, [], financial_metrics, targets⟩

/-! ## `ReportStitcher` (src/utils/stitch.py) -/

/-- `ReportStitcher`: the `sections` dict, one optional slot per key. -/
structure ReportStitcher where
  discovery : Option DiscoveryOutput
  market_analysis : Option MarketAnalysis
  strategy : Option StrategyOutput
  execution_plan : Option ExecutionPlan
  financial_model : Option FinancialModel
  risk_analysis : Option RiskAnalysis
  kpi_dashboard : Option KPIMetrics

/-- A fresh stitcher with no sections. -/
def ReportStitcher.empty : ReportStitcher :=
  ⟨none, none, none, none, none, none, none⟩

/-- `add_discovery`. -/
def ReportStitcher.add_discovery (st : ReportStitcher) (d : DiscoveryOutput) :
    ReportStitcher := { st with discovery := some d }

/-- `add_market_analysis`. -/
def ReportStitcher.add_market_analysis (st : ReportStitcher) (m : MarketAnalysis) :
    ReportStitcher := { st with market_analysis := some m }

/-- `add_strategy`. -/
def ReportStitcher.add_strategy (st : ReportStitcher) (s : StrategyOutput) :
    ReportStitcher := { st with strategy := some s }

/-- `add_execution_plan`. -/
def ReportStitcher.add_execution_plan (st : ReportStitcher) (e : ExecutionPlan) :
    ReportStitcher := { st with execution_plan := some e }

/-- `add_financial_model`. -/
def ReportStitcher.add_financial_model (st : ReportStitcher) (f : FinancialModel) :
    ReportStitcher := { st with financial_model := some f }

/-- `add_risk_analysis`. -/
def ReportStitcher.add_risk_analysis (st : ReportStitcher) (r : RiskAnalysis) :
    ReportStitcher := { st with risk_analysis := some r }

/-- `add_kpi_metrics`. -/
def ReportStitcher.add_kpi_metrics (st : ReportStitcher) (k : KPIMetrics) :
    ReportStitcher := { st with kpi_dashboard := some k }

/-- `generate_executive_summary`: appends up to four sentences in fixed
order.  Note that the financial sentence requires the key `roi_model`
*inside* the `roi_model` mapping (`if 'roi_model' in financial.roi_model`),
and then reports `roi_model.get('roi', 'N/A')`. -/
def ReportStitcher.generate_executive_summary (st : ReportStitcher) : String :=
  let parts : List String := []
  let parts :=
    match st.discovery with
    | some d => parts ++ ["**Problem Statement**: " ++ d.problem_statement]
    | none => parts
  let parts :=
    match st.strategy with
    | some s => parts ++ ["**Strategic Recommendation**: " ++ s.recommendation]
    | none => parts
  let parts :=
    match st.financial_model with
    | some f =>
      if objHasKey f.roi_model "roi_model" then
        parts ++ ["**Expected ROI**: " ++
          (match objGet f.roi_model "roi" with
           | some v => pyStr v
           | none => "N/A")]
      else parts
    | none => parts
  let parts :=
    match st.risk_analysis with
    | some r =>
      match r.risks with
      | top :: _ =>
        parts ++ ["**Primary Risk**: " ++
          (match objGet top "description" with
           | some v => pyStr v
           | none => "N/A")]
      | [] => parts
    | none => parts
  String.intercalate "\n\n" parts

/-- `FullReport` (without the wall-clock `generated_at`). -/
structure FullReport where
  executive_summary : String
  discovery : DiscoveryOutput
  market_analysis : MarketAnalysis
  strategy : StrategyOutput
  execution_plan : ExecutionPlan
  financial_model : FinancialModel
  risk_analysis : RiskAnalysis
  kpi_dashboard : KPIMetrics

/-- `build_full_report`: `FullReport(**sections)`; a missing section is
passed as `None`, which the pydantic model rejects. -/
def ReportStitcher.build_full_report (st : ReportStitcher) :
    Except PyErr FullReport :=
  let es := st.generate_executive_summary
  match st.discovery, st.market_analysis, st.strategy, st.execution_plan,
      st.financial_model, st.risk_analysis, st.kpi_dashboard with
  | some d, some m, some s, some e, some f, some r, some k =>
    .ok ⟨es, d, m, s, e, f, r, k⟩
  | _, _, _, _, _, _, _ => .error .validationError

/-! ## Orchestrator and entry point
(src/orchestrator.py, src/main.py) -/

/-- `BusinessConsultantOrchestrator.generate_report`, with the six
generation-client responses supplied in call order. -/
def BusinessConsultantOrchestrator.generate_report (ci : ClientInput)
    (rd rm rs ro rf rr : String) : Except PyErr FullReport :=
  let discovery := DiscoveryAgent.analyze ci rd
  let st := ReportStitcher.empty.add_discovery discovery
  let market := MarketAgent.analyze ci discovery rm
  let st := st.add_market_analysis market
  let strategy := StrategyAgent.analyze ci discovery market rs
  let st := st.add_strategy strategy
  let execution := OpsAgent.analyze ci discovery strategy ro
  let st := st.add_execution_plan execution
  let financial := FinanceAgent.analyze ci discovery strategy rf
  let st := st.add_financial_model financial
  let risk := RiskAgent.analyze ci discovery strategy rr
  let st := st.add_risk_analysis risk
  let kpi := KPIGenerator.generate_from_agents ⟨[]⟩
    (some financial) (some strategy) (some execution)
  let st := st.add_kpi_metrics kpi
  st.build_full_report

/-- `str.strip()` on a `String`. -/
def pyStripS (s : String) : String :=
  String.mk (pyStrip s.data)

/-- `get_client_input` (src/main.py): the five raw interactive answers
in prompt order; `.error 1` models `sys.exit(1)`.  Only business,
industry and goal are enforced; an empty constraints answer becomes
`"None specified"` and an empty additional-context answer becomes
`None`. -/
def get_client_input (business industry goal constraints additional : String) :
    Except Nat ClientInput :=
  let b := pyStripS business
  if b = "" then .error 1
  else
    let i := pyStripS industry
    if i = "" then .error 1
    else
      let g := pyStripS goal
      if g = "" then .error 1
      else
        let c := pyStripS constraints
        let a := pyStripS additional
        .ok ⟨b, i, g, if c ≠ "" then c else "None specified",
             if a ≠ "" then some a else none⟩

/-- `main` up to report generation: input collection runs first and an
input failure exits before the orchestrator (and hence before any
generation call) is reached; `except Exception` at the top level turns
any escaped error into `sys.exit(1)`. -/
def mainRun (business industry goal constraints additional : String)
    (rd rm rs ro rf rr : String) : Except Nat FullReport :=
  match get_client_input business industry goal constraints additional with
  | .error c => .error c
  | .ok ci =>
    match BusinessConsultantOrchestrator.generate_report ci rd rm rs ro rf rr with
    | .ok rep => .ok rep
    | .error _ => .error 1

/-! ## Claim-specific auxiliary definitions -/

/-- The §8 example `ClientInput` (claim C4 and the C2 witness). -/
def exampleClient : ClientInput :=
  ⟨"B2B SaaS for logistics", "Logistics", "Increase ARR", "Bootstrapped", none⟩

/-- A Finance artifact whose `roi_model` carries an ROI entry under the
key `roi` but no key named `roi_model` (claim C6). -/
def roiFinance : FinancialModel :=
  ⟨[], "Value pricing", [], [], [("roi", .str "25%")], []⟩

/-- A stitcher holding only the Finance section above (claim C6). -/
def roiOnlyStitcher : ReportStitcher :=
  ⟨none, none, none, none, some roiFinance, none, none⟩

/-- The executive summary as claim C6 words it: up to four sentences in
fixed order, the ROI sentence appearing whenever the Finance artifact is
present *and its `roi_model` carries an ROI entry* (a `roi` key). -/
def claimedSummary (st : ReportStitcher) : String :=
  String.intercalate "\n\n" (List.filterMap id
    [st.discovery.map
       (fun d => "**Problem Statement**: " ++ d.problem_statement),
     st.strategy.map
       (fun s => "**Strategic Recommendation**: " ++ s.recommendation),
     st.financial_model.bind
       (fun f =>
         match objGet f.roi_model "roi" with
         | some v => some ("**Expected ROI**: " ++ pyStr v)
         | none => none),
     st.risk_analysis.bind
       (fun r =>
         match r.risks with
         | top :: _ =>
           some ("**Primary Risk**: " ++
             (match objGet top "description" with
              | some v => pyStr v
              | none => "N/A"))
         | [] => none)])

/-- The executive summary with the ROI condition the code actually
implements: the sentence appears only when the `roi_model` mapping
contains a key literally named `roi_model`, and then shows
`roi_model.get('roi', 'N/A')`. -/
def amendedSummary (st : ReportStitcher) : String :=
  String.intercalate "\n\n" (List.filterMap id
    [st.discovery.map
       (fun d => "**Problem Statement**: " ++ d.problem_statement),
     st.strategy.map
       (fun s => "**Strategic Recommendation**: " ++ s.recommendation),
     st.financial_model.bind
       (fun f =>
         if objHasKey f.roi_model "roi_model" then
           some ("**Expected ROI**: " ++
             (match objGet f.roi_model "roi" with
              | some v => pyStr v
              | none => "N/A"))
         else none),
     st.risk_analysis.bind
       (fun r =>
         match r.risks with
         | top :: _ =>
           some ("**Primary Risk**: " ++
             (match objGet top "description" with
              | some v => pyStr v
              | none => "N/A"))
         | [] => none)])

/-- A text whose first balanced brace-delimited substring nests two
levels deep (claim C3). -/
def c3DeepText : String :=
  "noise \x7b\"a\": \x7b\"b\": \x7b\"c\": 1\x7d\x7d\x7d"

/-- Its first balanced brace-delimited substring. -/
def c3DeepFirst : List Char :=
  "\x7b\"a\": \x7b\"b\": \x7b\"c\": 1\x7d\x7d\x7d".data

/-! ## Claims C1, C4, C5, C7, C9, C10, C2 -/

/-- **C1** (code bug).  The claim — and the code's own docstring and its
`# If still fails, return partial model` comment — say the non-strict
Validator always returns an instance and never raises.  But the final
construction from the schema-declared subset is not exception-guarded:
for the empty mapping against the Discovery schema, the repair pass
fills every missing required field with the `PydanticUndefined`
sentinel (pydantic 2.x `FieldInfo.default`), which no field validator
accepts, and the final subset construction then raises
`ValidationError` to the caller.  A `None` input raises `TypeError` at
`schema(**data)` immediately. -/
theorem c1_validator_totality_fails :
    validate_and_fix_json DiscoveryOutput.construct discoveryFields
        (.obj []) false = .error .validationError ∧
    validate_and_fix_json DiscoveryOutput.construct discoveryFields
        .null false = .error .typeError := by
  exact ⟨rfl, rfl⟩

/-- **C4** (counterexample).  With the §8 example client and a stub
response `not json at all`, extraction fails and
`DiscoveryAgent._parse_fallback` fills `problem_statement` with the raw
response text (`text[:200]`), which validates successfully — so the
artifact's `problem_statement` is not the client's goal
`"Increase ARR"` as claimed. -/
theorem c4_problem_statement_not_goal :
    (DiscoveryAgent.analyze exampleClient "not json at all").problem_statement
      ≠ "Increase ARR" := by
  decide

/-- **C4** (amended).  The fallback artifact's `problem_statement` equals
the first 200 characters of the raw response, here the literal response
text itself; the goal-based artifact exists only behind the
outer exception net, which this path does not reach. -/
theorem c4_problem_statement_is_response :
    (DiscoveryAgent.analyze exampleClient "not json at all").problem_statement
      = "not json at all" := by
  rfl

/-- **C5** (counterexample).  The Validator applied to
`("risks" : "single risk text")` against the Risk schema does not return
the claimed instance: it raises a `ValidationError` (list items of
`risks` must be mappings, and the final schema-subset construction is
unguarded). -/
theorem c5_risk_coercion_raises :
    validate_and_fix_json RiskAnalysis.construct riskFields
        (.obj [("risks", .str "single risk text")]) false
      = .error .validationError := by
  exact rfl

/-- **C5** (amended).  The repair pass does wrap the scalar into
`risks = ["single risk text"]`, but fills the three missing fields with
the truthy `PydanticUndefined` sentinel wrapped in singleton lists, so
the repaired construction fails (items must be records), the
schema-subset retry fails too, and the call raises `ValidationError`
instead of returning the claimed instance. -/
theorem c5_risk_coercion_amended :
    fix_common_issues riskFields [("risks", .str "single risk text")]
      = [("risks", .arr [.str "single risk text"]),
         ("mitigations", .arr [.undef]),
         ("compliance_flags", .arr [.undef]),
         ("legal_considerations", .arr [.undef])] ∧
    validate_and_fix_json RiskAnalysis.construct riskFields
        (.obj [("risks", .str "single risk text")]) false
      = .error .validationError := by
  exact ⟨rfl, rfl⟩

/-- **C7** (confirmed).  `generate_from_agents` reads nothing but the
three artifact arguments — in particular not the generator's own
`metrics` state — so two calls on identical artifacts yield identical
metrics, and with no contributing artifact every field defaults to the
empty mapping. -/
theorem c7_metrics_derivation_pure :
    ∀ (g g' : KPIGenerator) (f : Option FinancialModel)
      (s : Option StrategyOutput) (e : Option ExecutionPlan),
      g.generate_from_agents f s e = g'.generate_from_agents f s e ∧
      g.generate_from_agents none none none = ⟨[], [], [], [], []⟩ := by
  intro g g' f s e
  exact ⟨rfl, rfl⟩

/-- **C10** (confirmed).  No path of `generate_from_agents` writes into
`customer_metrics`; it is the empty mapping for every combination of
inputs. -/
theorem c10_customer_metrics_always_empty :
    ∀ (g : KPIGenerator) (f : Option FinancialModel)
      (s : Option StrategyOutput) (e : Option ExecutionPlan),
      (g.generate_from_agents f s e).customer_metrics = [] := by
  intro g f s e
  rfl

/-- **C2** (confirmed).  When every generation response defeats the
extractor, every stage falls back to its deterministic mapping, every
fallback validates, all seven sections are added to the stitcher, and
`build_full_report` constructs a complete report — the pipeline
terminates normally with no missing section. -/
theorem c2_pipeline_total_under_malformed_output :
    ∀ (ci : ClientInput) (rd rm rs ro rf rr : String),
      extract_json rd = none → extract_json rm = none →
      extract_json rs = none → extract_json ro = none →
      extract_json rf = none → extract_json rr = none →
      ∃ rep, BusinessConsultantOrchestrator.generate_report ci rd rm rs ro rf rr
        = .ok rep := by
  intro ci rd rm rs ro rf rr hd hm hs ho hf hr
  exact ⟨_, rfl⟩

/-- **C6** (counterexample).  A stitcher holding only a Finance section
whose `roi_model` is `("roi" : "25%")`: the artifact is present and
carries an ROI entry, so the claimed summary contains the ROI sentence,
but the code's condition `'roi_model' in financial.roi_model` fails and
the generated summary is empty. -/
theorem c6_roi_sentence_missing :
    roiOnlyStitcher.generate_executive_summary = "" ∧
    claimedSummary roiOnlyStitcher = "**Expected ROI**: 25%" ∧
    roiOnlyStitcher.generate_executive_summary ≠ claimedSummary roiOnlyStitcher := by
  refine ⟨rfl, rfl, ?_⟩
  intro h
  simp only [show roiOnlyStitcher.generate_executive_summary = "" from rfl,
    show claimedSummary roiOnlyStitcher = "**Expected ROI**: 25%" from rfl] at h
  exact absurd h (by decide)

/-- **C6** (amended).  For every combination of present/absent sections
the summary is the fixed-order concatenation of up to four sentences,
with the ROI sentence appearing exactly when the Finance `roi_model`
mapping contains a key literally named `roi_model` (not merely an ROI
entry); any missing source omits its sentence and the summary is always
returned, possibly empty. -/
theorem c6_summary_amended :
    ∀ st : ReportStitcher, st.generate_executive_summary = amendedSummary st := by
  rintro ⟨d, m, s, e, f, r, k⟩
  cases d <;> cases s <;> cases f <;>
    rcases r with _ | ⟨_ | ⟨top, rest⟩, mi, cf, lc⟩ <;>
      simp [ReportStitcher.generate_executive_summary, amendedSummary] <;>
      split <;> simp

/-- **C9** (counterexample).  With non-empty business, industry and goal
but an empty constraints answer, the run does not abort: the constraints
field is silently replaced by `"None specified"` and input collection
succeeds. -/
theorem c9_empty_constraints_not_fatal :
    get_client_input "B" "I" "G" "" "x"
      = .ok ⟨"B", "I", "G", "None specified", some "x"⟩ := by
  exact rfl

/-- **C9** (amended).  Only the business, industry and goal answers are
enforced: if any of the three is empty after trimming, the whole run
exits with status 1 before the orchestrator — and hence before any
generation call — is reached; when all three are non-empty, input
collection succeeds, an empty constraints answer becoming
`"None specified"` and an empty additional-context answer becoming
`None`. -/
theorem c9_input_validation_amended :
    ∀ b i g c a rd rm rs ro rf rr : String,
      ((pyStripS b = "" ∨ pyStripS i = "" ∨ pyStripS g = "") →
        mainRun b i g c a rd rm rs ro rf rr = .error 1) ∧
      (pyStripS b ≠ "" → pyStripS i ≠ "" → pyStripS g ≠ "" →
        get_client_input b i g c a =
          .ok ⟨pyStripS b, pyStripS i, pyStripS g,
               if pyStripS c ≠ "" then pyStripS c else "None specified",
               if pyStripS a ≠ "" then some (pyStripS a) else none⟩) := by
  intro b i g c a rd rm rs ro rf rr
  constructor
  · intro h
    unfold mainRun get_client_input
    rcases h with h | h | h <;> simp [h]
  · intro hb hi hg
    unfold get_client_input
    simp [hb, hi, hg]

/-- Witness for C9 (amended): an empty goal answer exits with status 1,
and an empty constraints answer yields `"None specified"`. -/
theorem c9_input_validation_witness :
    mainRun "B" "I" " " "c" "a" "x" "x" "x" "x" "x" "x" = .error 1 ∧
    get_client_input "B" "I" "G" "" "" =
      .ok ⟨"B", "I", "G", "None specified", none⟩ := by
  constructor
  · exact (c9_input_validation_amended "B" "I" " " "c" "a"
      "x" "x" "x" "x" "x" "x").1 (Or.inr (Or.inr rfl))
  · exact (c9_input_validation_amended "B" "I" "G" "" ""
      "x" "x" "x" "x" "x" "x").2 (by decide) (by decide) (by decide)

/-- Witness for C2: the §8 example client with every response equal to
the ill-formed text `not json at all` still yields a complete report. -/
theorem c2_pipeline_witness :
    ∃ rep, BusinessConsultantOrchestrator.generate_report exampleClient
      "not json at all" "not json at all" "not json at all"
      "not json at all" "not json at all" "not json at all" = .ok rep := by
  exact c2_pipeline_total_under_malformed_output exampleClient
    "not json at all" "not json at all" "not json at all"
    "not json at all" "not json at all" "not json at all"
    rfl rfl rfl rfl rfl rfl

/-! ## Shape lemmas for the extractor (claim C8) -/

lemma skipWs_cons_not_ws {c : Char} (h : isJsonWs c = false) (r : List Char) :
    skipWs (c :: r) = c :: r := by
  simp [skipWs, List.dropWhile_cons, h]

lemma parseMembers_obj :
    ∀ (n : Nat) (l : List Char) (acc : Obj) (v : Json) (rest : List Char),
      parseMembers n l acc = some (v, rest) → ∃ o, v = .obj o := by
  intro n
  induction n with
  | zero =>
    intro l acc v rest h
    simp [parseMembers] at h
  | succ n ih =>
    intro l acc v rest h
    unfold parseMembers at h
    repeat split at h
    any_goals exact ih _ _ _ _ h
    any_goals simp at h
    exact ⟨_, h.1.symm⟩

lemma parseObjBody_obj :
    ∀ (n : Nat) (r : List Char) (v : Json) (rest : List Char),
      parseObjBody n r = some (v, rest) → ∃ o, v = .obj o := by
  intro n r v rest h
  cases n with
  | zero => simp [parseObjBody] at h
  | succ n =>
    unfold parseObjBody at h
    split at h
    · simp at h
      exact ⟨_, h.1.symm⟩
    · exact parseMembers_obj _ _ _ _ _ h

lemma jsonLoads_brace :
    ∀ (r : List Char) (v : Json),
      jsonLoads ('\x7b' :: r) = some v → ∃ o, v = .obj o := by
  intro r v h
  unfold jsonLoads at h
  rw [skipWs_cons_not_ws (by decide)] at h
  have hf : 2 * (('\x7b' :: r).length) + 2 = (2 * r.length + 3) + 1 := by
    simp [List.length_cons]
    ring
  rw [hf] at h
  unfold parseVal at h
  split at h
  · rename_i v' rest hbody
    split at h
    · obtain rfl : v' = v := Option.some.inj h
      exact parseObjBody_obj _ _ _ _ hbody
    · simp at h
  · simp at h

lemma fenceAttempt_head :
    ∀ (l m : List Char), fenceAttempt l = some m → ∃ m2, m = '\x7b' :: m2 := by
  intro l m h
  unfold fenceAttempt at h
  split at h
  · split at h
    · exact ⟨_, (Option.some.inj h).symm⟩
    · simp at h
  · simp at h

lemma fenceHere_head :
    ∀ (l m : List Char), fenceHere l = some m → ∃ m2, m = '\x7b' :: m2 := by
  intro l m h
  unfold fenceHere at h
  split at h
  · split at h
    · rename_i hatt
      exact fenceAttempt_head _ _ (hatt.trans h)
    · exact fenceAttempt_head _ _ h
  · exact fenceAttempt_head _ _ h

lemma findFence_head :
    ∀ (l grp : List Char), findFence l = some grp → ∃ m, grp = '\x7b' :: m := by
  intro l
  induction l with
  | nil =>
    intro grp h
    simp [findFence] at h
  | cons c r ih =>
    intro grp h
    unfold findFence at h
    split at h
    · split at h
      · rename_i hatt
        exact fenceHere_head _ _ (hatt.trans h)
      · exact ih _ h
    · exact ih _ h

lemma flatMatch_head :
    ∀ (l m rest : List Char), flatMatch l = some (m, rest) →
      ∃ m2, m = '\x7b' :: m2 := by
  intro l m rest h
  unfold flatMatch at h
  split at h
  · simp at h
  · split at h
    · rename_i hc
      split at h
      · obtain ⟨h1, h2⟩ := Prod.mk.inj (Option.some.inj h)
        exact ⟨_, by rw [← h1, hc]⟩
      · simp at h
    · simp at h

lemma step3F_obj :
    ∀ (n : Nat) (l : List Char) (v : Json),
      step3F n l = some v → ∃ o, v = .obj o := by
  intro n
  induction n with
  | zero =>
    intro l v h
    simp [step3F] at h
  | succ n ih =>
    intro l v h
    cases l with
    | nil => simp [step3F] at h
    | cons c r =>
      unfold step3F at h
      split at h
      · rename_i m rest hfm
        split at h
        · rename_i v' hld
          obtain rfl : v' = v := Option.some.inj h
          obtain ⟨m2, rfl⟩ := flatMatch_head _ _ _ hfm
          exact jsonLoads_brace _ _ hld
        · exact ih _ _ h
      · exact ih _ _ h

/-- **C8** (counterexample).  On the input `[1, 2]`, the first recovery
step returns whatever `json.loads` yields — here a list, not a mapping —
so the Extractor does not always return a dictionary or `None`. -/
theorem c8_extractor_returns_list :
    extract_json "[1, 2]" = some (.arr [.num "1", .num "2"]) ∧
    (Json.arr [.num "1", .num "2"]).isObj = false := by
  exact ⟨rfl, rfl⟩

/-- **C8** (amended).  For every input string the Extractor is total: it
returns `None` or a parsed JSON value; a value produced by the fence or
brace-scan steps is always a mapping, while the direct-parse step may
return a value of any JSON type when the entire stripped text parses.
Extraction failure is the silent `None`, never an error. -/
theorem c8_extractor_total :
    ∀ s : String,
      extract_json s = none ∨
      ∃ v, extract_json s = some v ∧
        (v.isObj = true ∨ jsonLoads (pyStrip s.data) = some v) := by
  intro s
  rcases h1 : jsonLoads (pyStrip s.data) with _ | v
  · rcases h2 : findFence s.data with _ | grp
    · rcases h3 : step3 s.data with _ | v
      · left
        simp [extract_json, h1, h2, h3]
      · right
        obtain ⟨o, rfl⟩ := step3F_obj _ _ _ h3
        exact ⟨Json.obj o, by simp [extract_json, h1, h2, h3], Or.inl rfl⟩
    · rcases h3 : jsonLoads grp with _ | v
      · rcases h4 : step3 s.data with _ | v
        · left
          simp [extract_json, h1, h2, h3, h4]
        · right
          obtain ⟨o, rfl⟩ := step3F_obj _ _ _ h4
          exact ⟨Json.obj o, by simp [extract_json, h1, h2, h3, h4], Or.inl rfl⟩
      · right
        obtain ⟨m, rfl⟩ := findFence_head _ _ h2
        obtain ⟨o, rfl⟩ := jsonLoads_brace _ _ h3
        exact ⟨Json.obj o, by simp [extract_json, h1, h2, h3], Or.inl rfl⟩
  · right
    exact ⟨v, by simp [extract_json, h1], Or.inr rfl⟩

/-! ## Soundness and bounded completeness of the brace regex
(claim C3)

`flatAux` (the regex scan) and `balAux` (the spec's bracket-depth
matcher) agree on every input whose matched segment nests at most one
inner level; on deeper nesting the regex attempt fails where the depth
matcher succeeds. -/

/-- Every match of the regex scan is a balanced match: scanning from
depth 1 (outside an inner pair) or depth 2 (inside one) agrees. -/
lemma balAux_of_flatAux :
    ∀ (b : Bool) (l : List Char) (m rest : List Char),
      flatAux b l = some (m, rest) → balAux (if b then 2 else 1) l = some (m, rest) := by
  intro b l
  induction b, l using flatAux.induct <;> intro m rest h <;> simp_all [flatAux, balAux]

lemma balAux1_of_flatAux (l m rest : List Char) (h : flatAux false l = some (m, rest)) :
    balAux 1 l = some (m, rest) := by
  simpa using balAux_of_flatAux false l m rest h

lemma balMatch_of_flatMatch :
    ∀ (l m rest : List Char), flatMatch l = some (m, rest) → balMatch l = some (m, rest) := by
  intro l m rest h
  cases l with
  | nil => simp [flatMatch] at h
  | cons c r =>
    simp only [flatMatch] at h
    simp only [balMatch]
    rcases hfa : flatAux false r with _ | ⟨m', rest'⟩
    · rw [hfa] at h
      simp_all
    · rw [hfa] at h
      by_cases hc : c = '\x7b'
      · rw [if_pos hc] at h ⊢
        rw [balAux1_of_flatAux r m' rest' hfa]
        exact h
      · rw [if_neg hc] at h
        exact absurd h (by simp)

lemma flatAux_of_balAux :
    ∀ (d : Nat) (l : List Char) (m rest : List Char),
      d = 1 ∨ d = 2 → balAux d l = some (m, rest) → okDepth d m = true →
      flatAux (d == 2) l = some (m, rest) := by
  intro d l
  induction d, l using balAux.induct with
  | case1 d =>
    intro m rest hd h hok
    simp [balAux] at h
  | case2 d r ip r1 hba ih =>
    intro m rest hd h hok
    simp only [balAux, hba] at h
    obtain ⟨rfl, rfl⟩ : '\x7b' :: ip = m ∧ r1 = rest := by simpa using h
    rcases hd with rfl | rfl
    · have hok2 : okDepth 2 ip = true := by simpa [okDepth] using hok
      have hfa := ih ip r1 (Or.inr rfl) hba hok2
      simp_all [flatAux]
    · simp [okDepth] at hok
  | case3 d r hba ih =>
    intro m rest hd h hok
    simp [balAux, hba] at h
  | case4 r =>
    intro m rest hd h hok
    simp_all [balAux, flatAux]
  | case5 d r hne ip r1 hba hch ih =>
    intro m rest hd h hok
    rcases hd with rfl | rfl
    · exact absurd rfl hne
    · simp only [balAux, hba] at h
      obtain ⟨rfl, rfl⟩ : '\x7d' :: ip = m ∧ r1 = rest := by simpa using h
      have hok1 : okDepth 1 ip = true := by simpa [okDepth] using hok
      have hfa := ih ip r1 (Or.inl rfl) hba hok1
      simp_all [flatAux]
  | case6 d r hne hba hch ih =>
    intro m rest hd h hok
    simp [balAux, hba, hne] at h
  | case7 d c r hne1 hne2 ip r1 hba ih =>
    intro m rest hd h hok
    simp only [balAux, hne1, hne2, hba, if_neg, if_false] at h
    obtain ⟨rfl, rfl⟩ : c :: ip = m ∧ r1 = rest := by simpa using h
    have hok' : okDepth d ip = true := by simpa [okDepth, hne1, hne2] using hok
    have hfa := ih ip r1 hd hba hok'
    simp_all [flatAux]
  | case8 d c r hne1 hne2 hba ih =>
    intro m rest hd h hok
    simp [balAux, hne1, hne2, hba] at h

lemma step3F_of_firstBalanced :
    ∀ (n : Nat) (l sub : List Char) (v : Json),
      l.length < n → firstBalanced l = some sub → okDepth 0 sub = true →
      jsonLoads sub = some v → step3F n l = some v := by
  intro n
  induction n with
  | zero =>
    intro l sub v hlen
    simp at hlen
  | succ n ih =>
    intro l sub v hlen hfb hok hjl
    cases l with
    | nil => simp [firstBalanced] at hfb
    | cons c r =>
      rcases hbm : balMatch (c :: r) with _ | ⟨m, rest⟩
      · have hfb' : firstBalanced r = some sub := by
          simpa [firstBalanced, hbm] using hfb
        have hfm : flatMatch (c :: r) = none := by
          rcases hq : flatMatch (c :: r) with _ | ⟨m, rest⟩
          · rfl
          · exact absurd (balMatch_of_flatMatch _ _ _ hq) (by simp [hbm])
        have hstep : step3F (n + 1) (c :: r) = step3F n r := by
          simp [step3F, hfm]
        rw [hstep]
        exact ih r sub v (Nat.lt_of_succ_lt_succ hlen) hfb' hok hjl
      · have hsub : sub = m := by
          have hx := hfb
          simp [firstBalanced, hbm] at hx
          exact hx.symm
        subst hsub
        by_cases hc : c = '\x7b'
        · simp only [balMatch, if_pos hc] at hbm
          rcases hba : balAux 1 r with _ | ⟨m', rest'⟩
          · rw [hba] at hbm
            simp at hbm
          · rw [hba] at hbm
            obtain ⟨hm, hrest⟩ := Prod.mk.inj (Option.some.inj hbm)
            have hok1 : okDepth 1 m' = true := by
              rw [← hm] at hok
              simpa [okDepth, hc] using hok
            have hfa := flatAux_of_balAux 1 r m' rest' (Or.inl rfl) hba hok1
            have hfa0 : flatAux false r = some (m', rest') := by
              simpa using hfa
            have hfm : flatMatch (c :: r) = some (sub, rest) := by
              simp only [flatMatch, if_pos hc, hfa0]
              rw [hm, hrest]
            simp [step3F, hfm, hjl]
        · simp only [balMatch, if_neg hc] at hbm
          simp at hbm

lemma findFence_of_no_fence :
    ∀ l : List Char, containsFence l = false → findFence l = none := by
  intro l
  induction l with
  | nil =>
    intro h
    rfl
  | cons c r ih =>
    intro h
    simp only [containsFence, Bool.or_eq_false_iff] at h
    have h1 : ¬ ((c :: r).take 3 = "```".data) := of_decide_eq_false h.1
    unfold findFence
    rw [if_neg h1]
    exact ih h.2

/-- **C3** (amended).  When the whole text is not itself parseable and
has no fenced block, and its first balanced brace-delimited substring
nests braces to depth at most one inside the outer pair and parses as a
JSON object, the third step finds exactly that substring and returns its
parse.  (The depth bound is what the counterexample forces: the brace
regex handles one level of nesting only.) -/
theorem c3_extract_json_first_balanced :
    ∀ (s : String) (sub : List Char) (d : Obj),
      jsonLoads (pyStrip s.data) = none →
      containsFence s.data = false →
      firstBalanced s.data = some sub →
      okDepth 0 sub = true →
      jsonLoads sub = some (.obj d) →
      extract_json s = some (.obj d) := by
  intro s sub d h1 h2 h3 h4 h5
  have hff := findFence_of_no_fence _ h2
  have hst : step3 s.data = some (.obj d) :=
    step3F_of_firstBalanced (s.data.length + 1) _ _ _ (Nat.lt_succ_self _) h3 h4 h5
  simp [extract_json, h1, hff, hst]

/-- **C3** (counterexample).  On a text whose first balanced substring
contains braces nested two levels deep, the regex cannot match that
substring; the scan instead matches an inner fragment, and the Extractor
returns the mapping parsed from that fragment, not from the first
balanced substring as claimed. -/
theorem c3_nested_depth_two_fails :
    extract_json c3DeepText = some (.obj [("b", .obj [("c", .num "1")])]) ∧
    firstBalanced c3DeepText.data = some c3DeepFirst ∧
    jsonLoads c3DeepFirst
      = some (.obj [("a", .obj [("b", .obj [("c", .num "1")])])]) ∧
    extract_json c3DeepText
      ≠ some (.obj [("a", .obj [("b", .obj [("c", .num "1")])])]) := by
  refine ⟨rfl, rfl, rfl, ?_⟩
  intro h
  rw [show extract_json c3DeepText = some (.obj [("b", .obj [("c", .num "1")])])
    from rfl] at h
  simp at h

/-- Witness for C3 (amended): a depth-one nested first balanced
substring is found and parsed. -/
theorem c3_first_balanced_witness :
    extract_json "noise \x7b\"a\": \x7b\"b\": 1\x7d\x7d tail"
      = some (.obj [("a", .obj [("b", .num "1")])]) := by
  exact c3_extract_json_first_balanced "noise \x7b\"a\": \x7b\"b\": 1\x7d\x7d tail"
    ("\x7b\"a\": \x7b\"b\": 1\x7d\x7d".data)
    [("a", .obj [("b", .num "1")])] rfl rfl rfl rfl rfl
